import Mathlib

/-!
Shallow embedding of the token issuance / verification / rate-limiting core of
the ReavPages backend (src/services/token.service.ts, src/models/token.model.ts,
src/config/config.ts).  The repository ships two variants of the token service,
separated by a document marker; where they differ both are modelled, suffixed
V1 (first variant) and V2 (second variant).

Modelling conventions:
  - Instants are Nat milliseconds since the Unix epoch (Date.now()); JWT claim
    instants are Nat seconds (moment().unix()).
  - moment(Number) and moment().isAfter(Number) parse a bare number as a
    millisecond timestamp; this is modelled literally, so a call site that
    passes a second-valued number is compared in mixed units, exactly as the
    JavaScript does.
  - moment a.diff(b, "minutes") truncates toward zero; with a ≥ b this is
    (a - b) / 60000 on Nat.  All uses in the source have a ≥ b for realistic
    clocks; Nat subtraction truncates at 0 for the opposite case, which agrees
    with the source's behaviour of the comparisons involved for nonnegative
    configuration values.
  - bcrypt is modelled as an ideal injective salted hash: a stored value is
    tagged `hashed` and remembers the exact preimage; bcrypt.compare succeeds
    exactly on that preimage and always fails against a non-hash.
  - crypto.randomInt(min, max) draws uniformly from [min, max): the random
    source is a Nat parameter r reduced mod (max - min).
  - Mongo/Mongoose: a collection is a List of documents in insertion order,
    findOne returns the first match, timestamps refresh updatedAt on every
    save/update, and schema validation restricts `type` to its enum on create.
-/

namespace ReavPages

/-- Configuration (config.token, from src/config/config.ts: TOKEN_* env values;
defaults: otpMaxRequests 5, otpRequestsWindow 10, otpCooldownTime 1,
otpExtendedCooldownTime 60). -/
structure Config where
  secret : Nat
  accessExpirationMinutes : Nat
  refreshExpirationDays : Nat
  otpExpirationMinutes : Nat
  otpMaxRequests : Nat
  otpRequestsWindow : Nat
  otpCooldownTime : Nat
  otpExtendedCooldownTime : Nat
deriving Repr, DecidableEq

/-- Payload of a signed JWT as built by TokenService.generateToken:
sub, iat (seconds), exp (seconds), type. -/
structure JwtPayload where
  sub : String
  iat : Nat
  exp : Nat
  type : String
deriving Repr, DecidableEq

/-- A raw credential as handed to callers: either a numeric OTP string or a
signed JWT.  `signedWith` records the secret the token was signed with;
signature verification checks it against the process secret. -/
inductive Raw where
  | otpCode (s : String)
  | jwtCred (payload : JwtPayload) (signedWith : Nat)
deriving Repr, DecidableEq

/-- The `token` field of a stored document: bcrypt-hashed by the schema
hooks, or plaintext if no hook intervened.  The ideal hash remembers its
preimage so that bcrypt.compare can be modelled exactly. -/
inductive StoredValue where
  | plain (v : Raw)
  | hashed (v : Raw)
deriving Repr, DecidableEq

/-- Whether a stored value is a bcrypt hash (as opposed to plaintext). -/
def StoredValue.isHashed : StoredValue → Bool
  | .plain _ => false
  | .hashed _ => true

/-- bcrypt.compare(presented, stored): true exactly when stored is the hash of
presented; comparing against a non-hash string fails. -/
def bcryptCompare (presented : Raw) : StoredValue → Bool
  | .plain _ => false
  | .hashed v => presented == v

/-- A Token document (src/models/token.model.ts).  `expires`, `createdAt` and
`updatedAt` are millisecond instants.  For records created without the OTP
counters (JWT records) the two counter fields are 0. -/
structure TokenDoc where
  id : Nat
  token : StoredValue
  userId : String
  type : String
  tokenType : String
  expires : Nat
  blacklisted : Bool
  otpRequestCount : Nat
  otpCooldownPeriod : Nat
  createdAt : Nat
  updatedAt : Nat
deriving Repr, DecidableEq

/-- The Credential Store: the Token collection in insertion order. -/
abbrev Store := List TokenDoc

/-- ApiError taxonomy as thrown by the service (http-status plus message).
badRequest 400, unauthorized 401, forbidden 403, notFound 404,
tooManyRequests 429, internalError 500. -/
inductive ApiErr where
  | badRequest (msg : String)
  | unauthorized (msg : String)
  | forbidden (msg : String)
  | notFound (msg : String)
  | tooManyRequests (msg : String)
  | internalError (msg : String)
deriving Repr, DecidableEq

/-- moment a.diff(b, "minutes"): whole minutes elapsed, truncated. -/
def diffMinutes (nowMs thenMs : Nat) : Nat := (nowMs - thenMs) / 60000

/-- moment().isAfter(n) for a bare number n: n is parsed as a millisecond
timestamp (moment(Number)), whatever units the caller intended. -/
def momentIsAfterNum (nowMs n : Nat) : Bool := decide (nowMs > n)

/-- Allowed values of the `type` field in the token schema enum. -/
def typeEnum : List String := ["access", "refresh", "resetPassword", "verifyEmail"]

/-- Token.findById(id). -/
def findById (store : Store) (id : Nat) : Option TokenDoc :=
  store.find? (fun d => d.id == id)

/-- document.save() on a fetched document: replace the document with the same
id.  Callers pass the already-updated document; updatedAt refreshing and the
pre-save hash hook are applied at each call site, mirroring the source. -/
def replaceDoc (store : Store) (d : TokenDoc) : Store :=
  store.map (fun x => if x.id == d.id then d else x)

/-- TokenService.createToken: new Token(data) followed by save().  The
pre-save hook hashes the (new, hence modified) token field; schema validation
restricts `type` to the enum; timestamps set createdAt = updatedAt = now.
A save failure surfaces as InternalError from the catch. -/
def createToken (store : Store) (tok : Raw) (userId ty tokenType : String)
    (expires count cooldown nowMs newId : Nat) :
    Except ApiErr TokenDoc × Store :=
  if typeEnum.contains ty then
    let d : TokenDoc :=
      { id := newId, token := .hashed tok, userId := userId, type := ty,
        tokenType := tokenType, expires := expires, blacklisted := false,
        otpRequestCount := count, otpCooldownPeriod := cooldown,
        createdAt := nowMs, updatedAt := nowMs }
    (.ok d, store ++ [d])
  else
    (.error (.internalError "An unexpected error occurred"), store)

/-- An update document for Token.findByIdAndUpdate: only the fields the
service ever updates. -/
structure TokenUpdate where
  token : Option Raw := none
  expires : Option Nat := none
  otpRequestCount : Option Nat := none
  otpCooldownPeriod : Option Nat := none

/-- TokenService.updateToken: Token.findByIdAndUpdate(id, update, {new: true}).
The pre-findOneAndUpdate hook hashes update.token when present; timestamps
refresh updatedAt; NotFound when no document has the id. -/
def updateToken (store : Store) (id : Nat) (u : TokenUpdate) (nowMs : Nat) :
    Except ApiErr TokenDoc × Store :=
  match findById store id with
  | none => (.error (.notFound "No token found with this ID"), store)
  | some d =>
    let d' : TokenDoc :=
      { d with
        token := match u.token with | some t => .hashed t | none => d.token,
        expires := u.expires.getD d.expires,
        otpRequestCount := u.otpRequestCount.getD d.otpRequestCount,
        otpCooldownPeriod := u.otpCooldownPeriod.getD d.otpCooldownPeriod,
        updatedAt := nowMs }
    (.ok d', store.map (fun x => if x.id == id then d' else x))

/-- TokenService.deleteToken: Token.findByIdAndDelete, NotFound when absent. -/
def deleteToken (store : Store) (id : Nat) : Except ApiErr Unit × Store :=
  match findById store id with
  | none => (.error (.notFound "Token not found or already deleted"), store)
  | some _ => (.ok (), store.filter (fun x => !(x.id == id)))

/-- TokenService.generateToken, tokenType "jwt" branch: payload with
sub = userId, iat = moment().unix() = nowMs / 1000,
exp = expires ? Math.floor(expires.getTime() / 1000) : moment().unix() + 3600,
signed with the process secret. -/
def generateTokenJwt (cfg : Config) (userId : String) (expires : Option Nat)
    (ty : String) (nowMs : Nat) : Raw :=
  Raw.jwtCred
    { sub := userId, iat := nowMs / 1000,
      exp := match expires with
             | some e => e / 1000
             | none => nowMs / 1000 + 3600,
      type := ty }
    cfg.secret

/-- TokenService.generateToken, OTP branch: the integer drawn by
crypto.randomInt(100000, 999999), which is uniform on [100000, 999999) -
the upper bound is excluded.  r models the random draw. -/
def otpNat (r : Nat) : Nat := 100000 + r % (999999 - 100000)

/-- TokenService.generateToken, OTP branch: the drawn integer rendered with
toString (no padding). -/
def generateTokenOtp (r : Nat) : Raw := Raw.otpCode (Nat.repr (otpNat r))

/-- jwt.verify (jsonwebtoken): signature check against the secret, then the
library's own expiry check `Math.floor(Date.now()/1000) >= payload.exp`,
which raises TokenExpiredError.  Neither library error is an ApiError, so the
service's catch rewrites both to InternalError. -/
inductive JwtVerifyResult where
  | ok (p : JwtPayload)
  | invalidSignature
  | tokenExpired
deriving Repr, DecidableEq

/-- jwt.verify(token, secret) at clock nowMs. -/
def jwtVerify (secret : Nat) (tok : Raw) (nowMs : Nat) : JwtVerifyResult :=
  match tok with
  | .otpCode _ => .invalidSignature
  | .jwtCred p s =>
    if s ≠ secret then .invalidSignature
    else if nowMs / 1000 ≥ p.exp then .tokenExpired
    else .ok p

/-- The decision taken by TokenService.canGenerateOtp (first variant) once a
prior OTP document has been found: verdict plus the saved document, if the
branch performs a save (document.save() refreshes updatedAt; the token field
is not modified, so the pre-save hash hook does not fire).
  - in cooldown (whole minutes since updatedAt ≤ otpCooldownPeriod): deny, no save;
  - otpRequestCount ≥ otpMaxRequests and whole minutes since createdAt ≤
    otpRequestsWindow: deny and escalate otpCooldownPeriod to the extended value;
  - otherwise: allow and reset otpCooldownPeriod to the base value. -/
def canGenerateOtpCheck (cfg : Config) (doc : TokenDoc) (nowMs : Nat) :
    Bool × Option TokenDoc :=
  let timeSinceCreation := diffMinutes nowMs doc.createdAt
  let timeSinceLastUpdate := diffMinutes nowMs doc.updatedAt
  if timeSinceLastUpdate ≤ doc.otpCooldownPeriod then
    (false, none)
  else if doc.otpRequestCount ≥ cfg.otpMaxRequests ∧
      timeSinceCreation ≤ cfg.otpRequestsWindow then
    (false, some { doc with otpCooldownPeriod := cfg.otpExtendedCooldownTime,
                            updatedAt := nowMs })
  else
    (true, some { doc with otpCooldownPeriod := cfg.otpCooldownTime,
                           updatedAt := nowMs })

/-- TokenService.canGenerateOtp (first variant).  Note the lookup filter is
Token.findOne({userId, type: "otp"}): records written by this service store
the purpose in `type` and the literal "otp" in `tokenType`, so this filter
matches none of them. -/
def canGenerateOtp (cfg : Config) (store : Store) (userId : String)
    (nowMs : Nat) : Bool × Store :=
  match store.find? (fun d => d.userId == userId && d.type == "otp") with
  | none => (true, store)
  | some doc =>
    match canGenerateOtpCheck cfg doc nowMs with
    | (verdict, none) => (verdict, store)
    | (verdict, some d') => (verdict, replaceDoc store d')

/-- TokenService.generateOTP (first variant).  users models
userService.getUserById; r the random draw; newId the id the store would
assign to a created document.  The find-existing filter is
Token.findOne({userId, type: "otp"}), same mismatch as canGenerateOtp.
The update path sets token (hashed by the pre-save hook) and increments
otpRequestCount; it does not touch expires. -/
def generateOTPv1 (cfg : Config) (users : List String) (store : Store)
    (id ty : String) (r nowMs newId : Nat) : Except ApiErr Raw × Store :=
  if !(users.contains id) then (.error (.notFound "User not found"), store)
  else
    match canGenerateOtp cfg store id nowMs with
    | (false, store1) =>
      (.error (.forbidden "Too many OTP requests. Please try again later."), store1)
    | (true, store1) =>
      let otpExpires := nowMs + cfg.otpExpirationMinutes * 60000
      let otpToken := generateTokenOtp r
      match store1.find? (fun d => d.userId == id && d.type == "otp") with
      | some existing =>
        let d' : TokenDoc :=
          { existing with token := .hashed otpToken,
                          otpRequestCount := existing.otpRequestCount + 1,
                          updatedAt := nowMs }
        (.ok otpToken, replaceDoc store1 d')
      | none =>
        match createToken store1 otpToken id ty "otp" otpExpires 1
            cfg.otpCooldownTime nowMs newId with
        | (.error e, store2) => (.error e, store2)
        | (.ok _, store2) => (.ok otpToken, store2)

/-- TokenService.generateOTP (second variant).  Lookup filter is
Token.findOne({userId, type, tokenType: "otp"}).  Rate limiting inline:
  - in cooldown: throw TooManyRequests;
  - otpRequestCount ≥ otpMaxRequests: escalate the cooldown when whole
    minutes since createdAt ≥ otpRequestsWindow, then throw TooManyRequests;
  - when whole minutes since createdAt ≥ otpExtendedCooldownTime +
    otpRequestsWindow: delete the record; the subsequent update on the
    now-deleted id then fails NotFound (the local variable stays truthy);
  - otherwise update the record in place (token, expires, count + 1, base
    cooldown) or create it with count 1. -/
def generateOTPv2 (cfg : Config) (users : List String) (store : Store)
    (userId ty : String) (r nowMs newId : Nat) : Except ApiErr Raw × Store :=
  if !(users.contains userId) then (.error (.notFound "User not found"), store)
  else
    let otpExpires := nowMs + cfg.otpExpirationMinutes * 60000
    let otpToken := generateTokenOtp r
    match store.find?
        (fun d => d.userId == userId && d.type == ty && d.tokenType == "otp") with
    | some existing =>
      let timeSinceCreation := diffMinutes nowMs existing.createdAt
      let timeSinceLastUpdate := diffMinutes nowMs existing.updatedAt
      if timeSinceLastUpdate ≤ existing.otpCooldownPeriod then
        (.error (.tooManyRequests "Too many OTP requests. Please try again later."),
         store)
      else if existing.otpRequestCount ≥ cfg.otpMaxRequests then
        if timeSinceCreation ≥ cfg.otpRequestsWindow then
          match updateToken store existing.id
              { otpCooldownPeriod := some cfg.otpExtendedCooldownTime } nowMs with
          | (.error e, store1) => (.error e, store1)
          | (.ok _, store1) =>
            (.error (.tooManyRequests "Too many OTP requests. Please try again later."),
             store1)
        else
          (.error (.tooManyRequests "Too many OTP requests. Please try again later."),
           store)
      else
        match
          (if timeSinceCreation ≥ cfg.otpExtendedCooldownTime + cfg.otpRequestsWindow
           then deleteToken store existing.id
           else (.ok (), store)) with
        | (.error e, store1) => (.error e, store1)
        | (.ok _, store1) =>
          match updateToken store1 existing.id
              { token := some otpToken, expires := some otpExpires,
                otpRequestCount := some (existing.otpRequestCount + 1),
                otpCooldownPeriod := some cfg.otpCooldownTime } nowMs with
          | (.error e, store2) => (.error e, store2)
          | (.ok _, store2) => (.ok otpToken, store2)
    | none =>
      match createToken store otpToken userId ty "otp" otpExpires 1
          cfg.otpCooldownTime nowMs newId with
      | (.error e, store1) => (.error e, store1)
      | (.ok _, store1) => (.ok otpToken, store1)

/-- TokenService.verifyToken (first variant), tokenType "otp" branch.  Lookup
Token.findOne({userId: id, type, tokenType}); the expiry guard is
moment().isAfter(Math.floor(expires.getTime() / 1000)): the second-valued
expiry is re-parsed as a millisecond timestamp.  On the successful path the
record is deleted (findByIdAndDelete) and true is returned. -/
def verifyTokenOtpV1 (store : Store) (token : Raw) (ty : String)
    (id : Option String) (nowMs : Nat) : Except ApiErr Bool × Store :=
  match id with
  | none => (.error (.badRequest "User ID is not provided"), store)
  | some uid =>
    match store.find?
        (fun d => d.userId == uid && d.type == ty && d.tokenType == "otp") with
    | none =>
      (.error (.notFound "Token not found, kindly generate a valid token"), store)
    | some doc =>
      if momentIsAfterNum nowMs (doc.expires / 1000) then
        (.error (.unauthorized "Token has expired"), store)
      else if !(bcryptCompare token doc.token) then
        (.error (.unauthorized "Invalid or expired OTP token"), store)
      else
        match findById store doc.id with
        | none => (.error (.notFound "Token not found or already deleted"), store)
        | some _ => (.ok true, store.filter (fun x => !(x.id == doc.id)))

/-- TokenService.verifyToken (second variant), tokenType "otp" branch.  Same
as the first variant except the expiry guard: the record is expired when
updatedAt.getTime() < Date.now() - otpExpirationMinutes * 60 * 1000
(both sides milliseconds). -/
def verifyTokenOtpV2 (cfg : Config) (store : Store) (token : Raw) (ty : String)
    (id : Option String) (nowMs : Nat) : Except ApiErr Bool × Store :=
  match id with
  | none => (.error (.badRequest "User ID is not provided"), store)
  | some uid =>
    match store.find?
        (fun d => d.userId == uid && d.type == ty && d.tokenType == "otp") with
    | none =>
      (.error (.notFound "Token not found, kindly generate a valid token"), store)
    | some doc =>
      if doc.updatedAt < nowMs - cfg.otpExpirationMinutes * 60 * 1000 then
        (.error (.unauthorized "Token has expired"), store)
      else if !(bcryptCompare token doc.token) then
        (.error (.unauthorized "Invalid or expired OTP token"), store)
      else
        match findById store doc.id with
        | none => (.error (.notFound "Token not found or already deleted"), store)
        | some _ => (.ok true, store.filter (fun x => !(x.id == doc.id)))

/-- TokenService.verifyToken, tokenType "jwt" branch (identical in both
variants).  jwt.verify first (library errors are not ApiErrors, so the catch
rewrites them to InternalError); then the service's own expiry guard
`payload.exp && moment().isAfter(payload.exp)` - payload.exp is seconds but is
parsed as milliseconds; then, for type "refresh", a stored-record check whose
expiry guard has the same mixed-unit comparison and which deletes the record
when it deems it expired. -/
def verifyTokenJwt (cfg : Config) (store : Store) (token : Raw) (ty : String)
    (id : Option String) (nowMs : Nat) : Except ApiErr JwtPayload × Store :=
  match jwtVerify cfg.secret token nowMs with
  | .invalidSignature => (.error (.internalError "An unexpected error occurred"), store)
  | .tokenExpired => (.error (.internalError "An unexpected error occurred"), store)
  | .ok payload =>
    if payload.exp ≠ 0 ∧ momentIsAfterNum nowMs payload.exp then
      (.error (.unauthorized "Expired token"), store)
    else if ty == "refresh" then
      match id with
      | none => (.error (.badRequest "User ID is not provided"), store)
      | some uid =>
        match store.find?
            (fun d => d.userId == uid && d.type == ty && d.tokenType == "jwt") with
        | none =>
          (.error (.notFound "Token not found, kindly generate a valid token"), store)
        | some doc =>
          if momentIsAfterNum nowMs (doc.expires / 1000) then
            (.error (.unauthorized "Expired token"),
             store.filter (fun x => !(x.id == doc.id)))
          else if !(bcryptCompare token doc.token) then
            (.error (.unauthorized "Invalid token"), store)
          else (.ok payload, store)
    else (.ok payload, store)

/-- The credential pair returned by TokenService.generateAuthTokens. -/
structure AuthTokens where
  accessToken : Raw
  accessExpires : Nat
  refreshToken : Raw
  refreshExpires : Nat
deriving Repr, DecidableEq

/-- TokenService.generateAuthTokens: mints the access JWT (not persisted) and
the refresh JWT, then persists the refresh record via createToken.  persistOk
models Credential Store availability for that single save: when false,
token.save() rejects and createToken raises InternalError, which propagates;
no pair is returned. -/
def generateAuthTokens (cfg : Config) (store : Store) (userId : Option String)
    (nowMs newId : Nat) (persistOk : Bool) : Except ApiErr AuthTokens × Store :=
  match userId with
  | none => (.error (.badRequest "User ID not provided"), store)
  | some uid =>
    let accessExpires := nowMs + cfg.accessExpirationMinutes * 60000
    let accessToken := generateTokenJwt cfg uid (some accessExpires) "access" nowMs
    let refreshExpires := nowMs + cfg.refreshExpirationDays * 86400000
    let refreshToken := generateTokenJwt cfg uid (some refreshExpires) "refresh" nowMs
    if !persistOk then
      (.error (.internalError "An unexpected error occurred"), store)
    else
      match createToken store refreshToken uid "refresh" "jwt" refreshExpires
          0 0 nowMs newId with
      | (.error e, store1) => (.error e, store1)
      | (.ok _, store1) =>
        (.ok { accessToken := accessToken, accessExpires := accessExpires,
               refreshToken := refreshToken, refreshExpires := refreshExpires },
         store1)

/-- Decidable equality for Except results, so that evaluation theorems about
service outcomes can be settled by decide. -/
instance {ε α : Type} [DecidableEq ε] [DecidableEq α] :
    DecidableEq (Except ε α) := fun x y =>
  match x, y with
  | .ok a, .ok b =>
    if h : a = b then isTrue (by rw [h]) else isFalse (by simp [h])
  | .error a, .error b =>
    if h : a = b then isTrue (by rw [h]) else isFalse (by simp [h])
  | .ok _, .error _ => isFalse (by simp)
  | .error _, .ok _ => isFalse (by simp)

/-! Concrete fixtures: the documented default configuration and a one-user
population, used by the evaluation theorems. -/

/-- Default configuration: otpMaxRequests 5, otpRequestsWindow 10 minutes,
otpCooldownTime 1 minute, otpExtendedCooldownTime 60 minutes,
otpExpirationMinutes 10. -/
def cfgEx : Config :=
  { secret := 7, accessExpirationMinutes := 30, refreshExpirationDays := 30,
    otpExpirationMinutes := 10, otpMaxRequests := 5, otpRequestsWindow := 10,
    otpCooldownTime := 1, otpExtendedCooldownTime := 60 }

/-- The registered users for the evaluation theorems. -/
def usersEx : List String := ["u1"]

/-! Theorems -/

/-- C10: when generateToken is called with tokenType "jwt" and no expiry
instant supplied, the signed payload's exp claim is exactly 3600 seconds after
the issue instant (iat = moment().unix()); when an expiry is supplied, exp is
the supplied instant truncated to whole seconds (floor of milliseconds /
1000). -/
theorem c10_jwt_exp_default_and_floor (cfg : Config) (u ty : String)
    (nowMs expMs : Nat) :
    generateTokenJwt cfg u none ty nowMs
      = Raw.jwtCred { sub := u, iat := nowMs / 1000, exp := nowMs / 1000 + 3600,
                      type := ty } cfg.secret
    ∧ generateTokenJwt cfg u (some expMs) ty nowMs
      = Raw.jwtCred { sub := u, iat := nowMs / 1000, exp := expMs / 1000,
                      type := ty } cfg.secret :=
  ⟨rfl, rfl⟩

/-- C7 counterexample: the claim says every value of "000000"-"999999",
including 999999, is a possible output; but crypto.randomInt(100000, 999999)
excludes its upper bound, so the drawn integer is never 999999 (and never
below 100000, so no leading zeros ever occur). -/
theorem c7_otp_range_counterexample : ¬ ∃ r : Nat, otpNat r = 999999 := by
  rintro ⟨r, h⟩
  unfold otpNat at h
  omega

/-- C7 (amended): the one-time-code generator returns the decimal string of an
integer drawn uniformly from 100000 to 999998 inclusive: every draw lands in
that range, every value of the range is reachable, and distinct seeds below
the modulus give distinct values (uniformity); values below 100000 (which
would need leading zeros) and the value 999999 are never produced. -/
theorem c7_otp_range_amended :
    (∀ r : Nat, 100000 ≤ otpNat r ∧ otpNat r ≤ 999998)
    ∧ (∀ v : Nat, 100000 ≤ v → v ≤ 999998 → ∃ r : Nat, otpNat r = v)
    ∧ (∀ r₁ r₂ : Nat, r₁ < 899999 → r₂ < 899999 →
        otpNat r₁ = otpNat r₂ → r₁ = r₂) := by
  refine ⟨fun r => ?_, fun v h1 h2 => ⟨v - 100000, ?_⟩, fun r₁ r₂ h1 h2 h3 => ?_⟩
  · unfold otpNat; omega
  · unfold otpNat; omega
  · unfold otpNat at h3; omega

/-- C7 witness: 123456 is a reachable output value. -/
theorem c7_otp_range_amended_witness : ∃ r : Nat, otpNat r = 123456 :=
  c7_otp_range_amended.2.1 123456 (by norm_num) (by norm_num)

/-- C5: generateAuthTokens persists exactly one record - the refresh-purpose
record (hashed by the pre-save hook) - and never an access-purpose record;
when persisting the refresh record fails the whole operation fails with
InternalError, the store is untouched and no credential pair is returned. -/
theorem c5_auth_pair_persists_only_refresh (cfg : Config) (store : Store)
    (uid : String) (nowMs newId : Nat) :
    generateAuthTokens cfg store (some uid) nowMs newId true
      = (.ok { accessToken := generateTokenJwt cfg uid
                 (some (nowMs + cfg.accessExpirationMinutes * 60000)) "access" nowMs,
               accessExpires := nowMs + cfg.accessExpirationMinutes * 60000,
               refreshToken := generateTokenJwt cfg uid
                 (some (nowMs + cfg.refreshExpirationDays * 86400000)) "refresh" nowMs,
               refreshExpires := nowMs + cfg.refreshExpirationDays * 86400000 },
         store ++ [{ id := newId,
                     token := .hashed (generateTokenJwt cfg uid
                       (some (nowMs + cfg.refreshExpirationDays * 86400000)) "refresh" nowMs),
                     userId := uid, type := "refresh", tokenType := "jwt",
                     expires := nowMs + cfg.refreshExpirationDays * 86400000,
                     blacklisted := false, otpRequestCount := 0,
                     otpCooldownPeriod := 0, createdAt := nowMs,
                     updatedAt := nowMs }])
    ∧ generateAuthTokens cfg store (some uid) nowMs newId false
      = (.error (.internalError "An unexpected error occurred"), store) :=
  ⟨rfl, rfl⟩

/-- A reference instant: 2023-11-14T22:13:20Z in milliseconds. -/
def t0Ex : Nat := 1700000000000

/-- An OTP record for u1 / resetPassword as the second variant creates it at
t = 0: requestCount 1, base cooldown 1 minute, 10-minute expiry. -/
def otpDocT0 : TokenDoc :=
  { id := 1, token := .hashed (generateTokenOtp 0), userId := "u1",
    type := "resetPassword", tokenType := "otp", expires := 600000,
    blacklisted := false, otpRequestCount := 1, otpCooldownPeriod := 1,
    createdAt := 0, updatedAt := 0 }

/-- An OTP record for u1 / resetPassword whose request budget is exhausted:
requestCount 5 = otpMaxRequests, base cooldown, created and last updated at
t = 0. -/
def otpDocMax : TokenDoc :=
  { id := 1, token := .hashed (generateTokenOtp 0), userId := "u1",
    type := "resetPassword", tokenType := "otp", expires := 600000,
    blacklisted := false, otpRequestCount := 5, otpCooldownPeriod := 1,
    createdAt := 0, updatedAt := 0 }

/-- C1: issue-then-verify on the first variant (the cited code).  The OTP is
issued at t0 with a 10-minute expiry and verified one second later with the
very code returned - and is rejected as "Token has expired", because the
expiry guard compares the clock in milliseconds against the expiry in
seconds; the round-trip never succeeds and the record is never consumed.  The
second variant (millisecond-consistent expiry guard) behaves as the claim
says: the same round-trip succeeds, deletes the record, and a second
verification fails NotFound. -/
theorem c1_otp_roundtrip_eval :
    (let issue := generateOTPv1 cfgEx usersEx [] "u1" "resetPassword" 0 t0Ex 1
     issue.1 = .ok (generateTokenOtp 0)
     ∧ (verifyTokenOtpV1 issue.2 (generateTokenOtp 0) "resetPassword"
         (some "u1") (t0Ex + 1000)).1
        = .error (.unauthorized "Token has expired")
     ∧ (verifyTokenOtpV1 issue.2 (generateTokenOtp 0) "resetPassword"
         (some "u1") (t0Ex + 1000)).2 = issue.2)
    ∧ (let issue := generateOTPv2 cfgEx usersEx [] "u1" "resetPassword" 0 t0Ex 1
       let firstVerify := verifyTokenOtpV2 cfgEx issue.2 (generateTokenOtp 0)
         "resetPassword" (some "u1") (t0Ex + 1000)
       firstVerify.1 = .ok true
       ∧ firstVerify.2 = []
       ∧ (verifyTokenOtpV2 cfgEx firstVerify.2 (generateTokenOtp 0)
           "resetPassword" (some "u1") (t0Ex + 2000)).1
          = .error (.notFound "Token not found, kindly generate a valid token")) := by
  decide

/-- C4: two issuances for the same (subject, purpose) pair under the first
variant (the cited code).  Its find-existing filter {userId, type: "otp"}
never matches a stored record (records keep the purpose in type and "otp" in
tokenType), so the second issuance creates a second record: afterwards two
active, unexpired records exist for (u1, resetPassword), violating the
at-most-one-active invariant.  The second variant's filter
{userId, type, tokenType: "otp"} finds the record and updates it in place,
keeping a single record with the incremented counter. -/
theorem c4_duplicate_active_records_eval :
    (let s1 := generateOTPv1 cfgEx usersEx [] "u1" "resetPassword" 0 t0Ex 1
     let s2 := generateOTPv1 cfgEx usersEx s1.2 "u1" "resetPassword" 1
       (t0Ex + 10000) 2
     s2.1 = .ok (generateTokenOtp 1)
     ∧ (s2.2.filter (fun d => d.userId == "u1" && d.type == "resetPassword"
          && d.tokenType == "otp" && decide (t0Ex + 10000 < d.expires))).length = 2)
    ∧ (let s1 := generateOTPv2 cfgEx usersEx [] "u1" "resetPassword" 0 t0Ex 1
       let s2 := generateOTPv2 cfgEx usersEx s1.2 "u1" "resetPassword" 1
         (t0Ex + 120000) 2
       s2.1 = .ok (generateTokenOtp 1)
       ∧ s2.2.length = 1
       ∧ s2.2.map (fun d => d.otpRequestCount) = [2]) := by
  decide

/-- C6: a session credential with exp = 1700000000 seconds presented exactly
at its expiry instant (now = 1700000000000 ms).  The signer library itself
already rejects at now ≥ exp with TokenExpiredError, which is not an
ApiError, so the service's catch rewrites it to InternalError - the failure
is not Expired as the claim says.  One second before the expiry instant the
service's own guard moment().isAfter(payload.exp) fires instead (it parses
the second-valued exp as milliseconds), rejecting a still-valid credential
with "Expired token". -/
theorem c6_expiry_boundary_eval :
    (verifyTokenJwt cfgEx []
        (generateTokenJwt cfgEx "u1" (some 1700000000000) "access" 1690000000000)
        "access" none 1700000000000).1
      = .error (.internalError "An unexpected error occurred")
    ∧ (verifyTokenJwt cfgEx []
        (generateTokenJwt cfgEx "u1" (some 1700000000000) "access" 1690000000000)
        "access" none 1699999999000).1
      = .error (.unauthorized "Expired token") := by
  decide

/-- C2 counterexample: a record with the budget exhausted (requestCount 5 =
otpMaxRequests), out of cooldown.  Cited second-variant generateOTP: (a) 20
minutes after creation the requests window (10 min) has elapsed, so the claim
says the budget is reset and issuance allowed - but the code denies with
TooManyRequests and escalates the cooldown to 60; (b) 5 minutes after
creation, within the window, the claim says deny AND escalate - the code
denies but leaves the cooldown at 1. -/
theorem c2_escalation_counterexample :
    ((generateOTPv2 cfgEx usersEx [otpDocMax] "u1" "resetPassword" 1 1200000 2).1
        = .error (.tooManyRequests "Too many OTP requests. Please try again later.")
      ∧ (generateOTPv2 cfgEx usersEx [otpDocMax] "u1" "resetPassword" 1
          1200000 2).2.map (fun d => d.otpCooldownPeriod) = [60])
    ∧ ((generateOTPv2 cfgEx usersEx [otpDocMax] "u1" "resetPassword" 1 300000 2).1
        = .error (.tooManyRequests "Too many OTP requests. Please try again later.")
      ∧ (generateOTPv2 cfgEx usersEx [otpDocMax] "u1" "resetPassword" 1
          300000 2).2.map (fun d => d.otpCooldownPeriod) = [1]) := by
  decide

/-- C3 counterexample: the claim says a request at T = 90 s (cooldown 1
minute, record updated at T = 0) is allowed with requestCount 2: 90 s since
updatedAt is not strictly less than 1 minute.  Both cited code paths deny it:
the comparison is truncated-whole-minutes ≤ cooldown, and 90 s truncates to
1 ≤ 1. -/
theorem c3_cooldown_boundary_counterexample :
    (generateOTPv2 cfgEx usersEx [otpDocT0] "u1" "resetPassword" 1 90000 2).1
      = .error (.tooManyRequests "Too many OTP requests. Please try again later.")
    ∧ (canGenerateOtpCheck cfgEx otpDocT0 90000).1 = false := by
  decide

/-- C2 (amended): the claimed policy is the one implemented by the first
variant's canGenerateOtp.  For a prior record that is out of cooldown
(truncated whole minutes since updatedAt exceed its cooldown): if
requestCount ≥ otpMaxRequests and the truncated whole minutes since createdAt
are at most otpRequestsWindow, the request is denied and the record's
cooldown is escalated to the extended value (saved, so the next check uses
it); if instead the window has elapsed, the request is allowed and the
cooldown is reset to the base value.  (The second variant's generateOTP does
not implement this: it denies whenever requestCount ≥ otpMaxRequests
regardless of the window and escalates only when the window has elapsed -
see the counterexample.) -/
theorem c2_escalation_amended (cfg : Config) (doc : TokenDoc) (nowMs : Nat)
    (hcool : diffMinutes nowMs doc.updatedAt > doc.otpCooldownPeriod) :
    (doc.otpRequestCount ≥ cfg.otpMaxRequests →
      diffMinutes nowMs doc.createdAt ≤ cfg.otpRequestsWindow →
      canGenerateOtpCheck cfg doc nowMs
        = (false, some { doc with otpCooldownPeriod := cfg.otpExtendedCooldownTime,
                                  updatedAt := nowMs }))
    ∧ (diffMinutes nowMs doc.createdAt > cfg.otpRequestsWindow →
      canGenerateOtpCheck cfg doc nowMs
        = (true, some { doc with otpCooldownPeriod := cfg.otpCooldownTime,
                                 updatedAt := nowMs })) := by
  unfold canGenerateOtpCheck
  constructor
  · intro h1 h2
    rw [if_neg (by omega), if_pos ⟨h1, h2⟩]
  · intro h1
    rw [if_neg (by omega), if_neg (by omega)]

/-- C2 witness: concrete escalation - budget exhausted, out of cooldown, 5
minutes into the 10-minute window: denied with the cooldown escalated to
60. -/
theorem c2_escalation_amended_witness :
    canGenerateOtpCheck cfgEx otpDocMax 300000
      = (false, some { otpDocMax with otpCooldownPeriod := 60,
                                      updatedAt := 300000 }) :=
  (c2_escalation_amended cfgEx otpDocMax 300000 (by decide)).1
    (by decide) (by decide)

/-- The u1 / resetPassword issuance scenario run against the second variant:
request at T = 0 on an empty store, then at T = 30 s, T = 90 s and
T = 120 s. -/
def c3Step1 : Except ApiErr Raw × Store :=
  generateOTPv2 cfgEx usersEx [] "u1" "resetPassword" 0 0 1

/-- Scenario step 2: request at T = 30 s. -/
def c3Step2 : Except ApiErr Raw × Store :=
  generateOTPv2 cfgEx usersEx c3Step1.2 "u1" "resetPassword" 1 30000 2

/-- Scenario step 3: request at T = 90 s. -/
def c3Step3 : Except ApiErr Raw × Store :=
  generateOTPv2 cfgEx usersEx c3Step2.2 "u1" "resetPassword" 1 90000 2

/-- Scenario step 4: request at T = 120 s. -/
def c3Step4 : Except ApiErr Raw × Store :=
  generateOTPv2 cfgEx usersEx c3Step3.2 "u1" "resetPassword" 2 120000 2

/-- C3 (amended): with the request budget not exhausted, the rate limiter
denies exactly when the truncated whole minutes since the record's updatedAt
are ≤ the record's current cooldown - an inclusive comparison on truncated
minutes, not the claim's strict comparison on exact time, so with a 1-minute
cooldown requests stay denied until two full minutes have passed.  The
concrete scenario accordingly runs: T = 0 allowed (requestCount 1, cooldown
1 min), T = 30 s denied, T = 90 s denied (1 whole minute ≤ 1), and T = 120 s
allowed with requestCount 2. -/
theorem c3_cooldown_amended :
    (∀ (cfg : Config) (doc : TokenDoc) (nowMs : Nat),
      doc.otpRequestCount < cfg.otpMaxRequests →
      ((canGenerateOtpCheck cfg doc nowMs).1 = false
        ↔ diffMinutes nowMs doc.updatedAt ≤ doc.otpCooldownPeriod))
    ∧ (c3Step1.1 = .ok (generateTokenOtp 0)
       ∧ c3Step1.2.map (fun d => d.otpRequestCount) = [1]
       ∧ c3Step1.2.map (fun d => d.otpCooldownPeriod) = [1]
       ∧ c3Step2.1
          = .error (.tooManyRequests "Too many OTP requests. Please try again later.")
       ∧ c3Step3.1
          = .error (.tooManyRequests "Too many OTP requests. Please try again later.")
       ∧ c3Step4.1 = .ok (generateTokenOtp 2)
       ∧ c3Step4.2.map (fun d => d.otpRequestCount) = [2]) := by
  constructor
  · intro cfg doc nowMs hbudget
    unfold canGenerateOtpCheck
    dsimp only
    split_ifs with h1 h2
    · exact iff_of_true rfl h1
    · exact absurd h2.1 (by omega)
    · exact iff_of_false (by simp) h1
  · decide

/-- C3 witness: the cooldown rule instantiated at the T = 90 s record: denied
because 1 whole minute ≤ the 1-minute cooldown. -/
theorem c3_cooldown_amended_witness :
    (canGenerateOtpCheck cfgEx otpDocT0 90000).1 = false
      ↔ diffMinutes 90000 otpDocT0.updatedAt ≤ otpDocT0.otpCooldownPeriod :=
  c3_cooldown_amended.1 cfgEx otpDocT0 90000 (by decide)

/-- Every token value stored in the store is a bcrypt hash, never plaintext. -/
def storeHashed (s : Store) : Bool := s.all (fun d => d.token.isHashed)

/-- Membership characterisation of storeHashed. -/
theorem storeHashed_iff (s : Store) :
    storeHashed s = true ↔ ∀ d ∈ s, d.token.isHashed = true := by
  simp [storeHashed, List.all_eq_true]

/-- Appending a hashed document preserves the invariant. -/
theorem storeHashed_append (s : Store) (d : TokenDoc) (hs : storeHashed s = true)
    (hd : d.token.isHashed = true) : storeHashed (s ++ [d]) = true := by
  rw [storeHashed_iff] at hs ⊢
  intro x hx
  rcases List.mem_append.mp hx with h | h
  · exact hs x h
  · rw [List.mem_singleton] at h
    subst h
    exact hd

/-- Replacing a document with a hashed one preserves the invariant. -/
theorem storeHashed_replaceDoc (s : Store) (d : TokenDoc)
    (hs : storeHashed s = true) (hd : d.token.isHashed = true) :
    storeHashed (replaceDoc s d) = true := by
  rw [storeHashed_iff] at hs ⊢
  intro x hx
  rcases List.mem_map.mp hx with ⟨y, hy, hxy⟩
  by_cases h : (y.id == d.id) = true
  · rw [if_pos h] at hxy
    subst hxy
    exact hd
  · rw [if_neg h] at hxy
    subst hxy
    exact hs y hy

/-- Filtering preserves the invariant. -/
theorem storeHashed_filter (s : Store) (p : TokenDoc → Bool)
    (hs : storeHashed s = true) : storeHashed (s.filter p) = true := by
  rw [storeHashed_iff] at hs ⊢
  intro x hx
  exact hs x (List.mem_of_mem_filter hx)

/-- createToken stores a hashed token (the pre-save hook). -/
theorem storeHashed_createToken (s : Store) (tok : Raw) (uid ty tt : String)
    (e c cd n i : Nat) (hs : storeHashed s = true) :
    storeHashed (createToken s tok uid ty tt e c cd n i).2 = true := by
  unfold createToken
  split
  · exact storeHashed_append _ _ hs rfl
  · exact hs

/-- updateToken hashes any supplied token (the pre-findOneAndUpdate hook) and
otherwise keeps the stored one. -/
theorem storeHashed_updateToken (s : Store) (id : Nat) (u : TokenUpdate)
    (nowMs : Nat) (hs : storeHashed s = true) :
    storeHashed (updateToken s id u nowMs).2 = true := by
  unfold updateToken
  split
  · exact hs
  · rename_i d hd
    rw [storeHashed_iff]
    intro x hx
    rcases List.mem_map.mp hx with ⟨y, hy, hxy⟩
    by_cases h : (y.id == id) = true
    · rw [if_pos h] at hxy
      subst hxy
      cases htok : u.token with
      | some t => simp [htok, StoredValue.isHashed]
      | none =>
        simp only [htok]
        unfold findById at hd
        exact (storeHashed_iff s).mp hs d (List.mem_of_find?_eq_some hd)
    · rw [if_neg h] at hxy
      subst hxy
      exact (storeHashed_iff s).mp hs y hy

/-- deleteToken preserves the invariant. -/
theorem storeHashed_deleteToken (s : Store) (id : Nat)
    (hs : storeHashed s = true) : storeHashed (deleteToken s id).2 = true := by
  unfold deleteToken
  split
  · exact hs
  · exact storeHashed_filter _ _ hs

/-- The rate-limit check never touches the token field. -/
theorem canGenerateOtpCheck_token_eq (cfg : Config) (doc : TokenDoc)
    (nowMs : Nat) (d' : TokenDoc)
    (h : (canGenerateOtpCheck cfg doc nowMs).2 = some d') :
    d'.token = doc.token := by
  unfold canGenerateOtpCheck at h
  dsimp only at h
  split_ifs at h
  · simp only [Option.some.injEq] at h
    rw [← h]
  · simp only [Option.some.injEq] at h
    rw [← h]

/-- canGenerateOtp preserves the invariant. -/
theorem storeHashed_canGenerateOtp (cfg : Config) (s : Store) (uid : String)
    (nowMs : Nat) (hs : storeHashed s = true) :
    storeHashed (canGenerateOtp cfg s uid nowMs).2 = true := by
  unfold canGenerateOtp
  split
  · exact hs
  · rename_i doc hdoc
    split
    · exact hs
    · rename_i verdict d' hcheck
      apply storeHashed_replaceDoc _ _ hs
      have htok : d'.token = doc.token :=
        canGenerateOtpCheck_token_eq cfg doc nowMs d'
          (by rw [hcheck])
      rw [htok]
      exact (storeHashed_iff s).mp hs doc (List.mem_of_find?_eq_some hdoc)

/-- generateOTP (first variant) preserves the invariant. -/
theorem storeHashed_generateOTPv1 (cfg : Config) (users : List String)
    (s : Store) (id ty : String) (r nowMs newId : Nat)
    (hs : storeHashed s = true) :
    storeHashed (generateOTPv1 cfg users s id ty r nowMs newId).2 = true := by
  unfold generateOTPv1
  split
  · exact hs
  · have h1 := storeHashed_canGenerateOtp cfg s id nowMs hs
    split
    · rename_i store1 heq
      rw [heq] at h1
      exact h1
    · rename_i store1 heq
      rw [heq] at h1
      dsimp only
      split
      · exact storeHashed_replaceDoc _ _ h1 rfl
      · split
        · rename_i e store2 heq2
          have h2 := storeHashed_createToken store1 (generateTokenOtp r) id ty
            "otp" (nowMs + cfg.otpExpirationMinutes * 60000) 1
            cfg.otpCooldownTime nowMs newId h1
          rw [heq2] at h2
          exact h2
        · rename_i t store2 heq2
          have h2 := storeHashed_createToken store1 (generateTokenOtp r) id ty
            "otp" (nowMs + cfg.otpExpirationMinutes * 60000) 1
            cfg.otpCooldownTime nowMs newId h1
          rw [heq2] at h2
          exact h2

/-- generateOTP (second variant) preserves the invariant. -/
theorem storeHashed_generateOTPv2 (cfg : Config) (users : List String)
    (s : Store) (uid ty : String) (r nowMs newId : Nat)
    (hs : storeHashed s = true) :
    storeHashed (generateOTPv2 cfg users s uid ty r nowMs newId).2 = true := by
  unfold generateOTPv2
  split
  · exact hs
  · dsimp only
    split
    · rename_i existing hfind
      split_ifs with h1 h2 h3 h4
      · exact hs
      · split
        · rename_i e store1 heq
          have h5 := storeHashed_updateToken s existing.id
            { otpCooldownPeriod := some cfg.otpExtendedCooldownTime } nowMs hs
          rw [heq] at h5
          exact h5
        · rename_i t store1 heq
          have h5 := storeHashed_updateToken s existing.id
            { otpCooldownPeriod := some cfg.otpExtendedCooldownTime } nowMs hs
          rw [heq] at h5
          exact h5
      · exact hs
      · split
        · rename_i e store1 heq
          have h5 := storeHashed_deleteToken s existing.id hs
          rw [heq] at h5
          exact h5
        · rename_i u0 store1 heq
          have hstore1 : storeHashed store1 = true := by
            have h5 := storeHashed_deleteToken s existing.id hs
            rw [heq] at h5
            exact h5
          split
          · rename_i e store2 heq2
            have h6 := storeHashed_updateToken store1 existing.id
              { token := some (generateTokenOtp r),
                expires := some (nowMs + cfg.otpExpirationMinutes * 60000),
                otpRequestCount := some (existing.otpRequestCount + 1),
                otpCooldownPeriod := some cfg.otpCooldownTime } nowMs hstore1
            rw [heq2] at h6
            exact h6
          · rename_i t store2 heq2
            have h6 := storeHashed_updateToken store1 existing.id
              { token := some (generateTokenOtp r),
                expires := some (nowMs + cfg.otpExpirationMinutes * 60000),
                otpRequestCount := some (existing.otpRequestCount + 1),
                otpCooldownPeriod := some cfg.otpCooldownTime } nowMs hstore1
            rw [heq2] at h6
            exact h6
      · dsimp only
        split
        · rename_i e store2 heq2
          have h6 := storeHashed_updateToken s existing.id
            { token := some (generateTokenOtp r),
              expires := some (nowMs + cfg.otpExpirationMinutes * 60000),
              otpRequestCount := some (existing.otpRequestCount + 1),
              otpCooldownPeriod := some cfg.otpCooldownTime } nowMs hs
          rw [heq2] at h6
          exact h6
        · rename_i t store2 heq2
          have h6 := storeHashed_updateToken s existing.id
            { token := some (generateTokenOtp r),
              expires := some (nowMs + cfg.otpExpirationMinutes * 60000),
              otpRequestCount := some (existing.otpRequestCount + 1),
              otpCooldownPeriod := some cfg.otpCooldownTime } nowMs hs
          rw [heq2] at h6
          exact h6
    · split
      · rename_i e store1 heq
        have h5 := storeHashed_createToken s (generateTokenOtp r) uid ty "otp"
          (nowMs + cfg.otpExpirationMinutes * 60000) 1 cfg.otpCooldownTime
          nowMs newId hs
        rw [heq] at h5
        exact h5
      · rename_i t store1 heq
        have h5 := storeHashed_createToken s (generateTokenOtp r) uid ty "otp"
          (nowMs + cfg.otpExpirationMinutes * 60000) 1 cfg.otpCooldownTime
          nowMs newId hs
        rw [heq] at h5
        exact h5

/-- On success, generateOTP (first variant) returns the raw generated code. -/
theorem generateOTPv1_ok_value (cfg : Config) (users : List String) (s : Store)
    (id ty : String) (r nowMs newId : Nat) :
    ∀ v, (generateOTPv1 cfg users s id ty r nowMs newId).1 = .ok v →
      v = generateTokenOtp r := by
  intro v hv
  unfold generateOTPv1 at hv
  split at hv
  · simp at hv
  · split at hv
    · simp at hv
    · dsimp only at hv
      split at hv
      · simp only [Except.ok.injEq] at hv
        exact hv.symm
      · split at hv
        · simp at hv
        · simp only [Except.ok.injEq] at hv
          exact hv.symm

/-- On success, generateOTP (second variant) returns the raw generated code. -/
theorem generateOTPv2_ok_value (cfg : Config) (users : List String) (s : Store)
    (uid ty : String) (r nowMs newId : Nat) :
    ∀ v, (generateOTPv2 cfg users s uid ty r nowMs newId).1 = .ok v →
      v = generateTokenOtp r := by
  intro v hv
  unfold generateOTPv2 at hv
  split at hv
  · simp at hv
  · dsimp only at hv
    split at hv
    · split_ifs at hv <;> repeat' split at hv
      all_goals simp_all
    · split at hv
      · simp at hv
      · simp only [Except.ok.injEq] at hv
        exact hv.symm

/-- C8: issueOneTimeCode returns the plaintext code to the caller while the
stored value is always a salted hash, never the plaintext - on the
create-new-record path and on the update-existing-record path alike, in both
variants, because the schema's save and findOneAndUpdate hooks hash the
token field before persisting.  Formally: assuming every pre-existing stored
token is hashed, a successful generateOTP returns exactly the raw generated
code and every stored token afterwards is still hashed. -/
theorem c8_plaintext_out_hash_at_rest (cfg : Config) (users : List String)
    (store : Store) (uid ty : String) (r nowMs newId : Nat)
    (h : storeHashed store = true) :
    (∀ v, (generateOTPv1 cfg users store uid ty r nowMs newId).1 = .ok v →
        v = generateTokenOtp r)
    ∧ storeHashed (generateOTPv1 cfg users store uid ty r nowMs newId).2 = true
    ∧ (∀ v, (generateOTPv2 cfg users store uid ty r nowMs newId).1 = .ok v →
        v = generateTokenOtp r)
    ∧ storeHashed (generateOTPv2 cfg users store uid ty r nowMs newId).2 = true :=
  ⟨generateOTPv1_ok_value cfg users store uid ty r nowMs newId,
   storeHashed_generateOTPv1 cfg users store uid ty r nowMs newId h,
   generateOTPv2_ok_value cfg users store uid ty r nowMs newId,
   storeHashed_generateOTPv2 cfg users store uid ty r nowMs newId h⟩

/-- C8 witness: a fresh issuance into an empty store leaves only hashed
tokens at rest. -/
theorem c8_plaintext_out_hash_at_rest_witness :
    storeHashed (generateOTPv1 cfgEx usersEx [] "u1" "resetPassword" 0 0 1).2
      = true :=
  (c8_plaintext_out_hash_at_rest cfgEx usersEx [] "u1" "resetPassword" 0 0 1
    rfl).2.1

/-- C9: a failed one-time-code verification (NotFound, Expired or
InvalidCode) leaves the store untouched - the record is deleted only on the
successful-consumption path, in both variants, so a wrong guess leaves a
still-valid code usable. -/
theorem c9_failure_never_deletes (cfg : Config) (store : Store) (tok : Raw)
    (ty : String) (id : Option String) (nowMs : Nat) :
    (∀ e, (verifyTokenOtpV1 store tok ty id nowMs).1 = .error e →
        (verifyTokenOtpV1 store tok ty id nowMs).2 = store)
    ∧ (∀ e, (verifyTokenOtpV2 cfg store tok ty id nowMs).1 = .error e →
        (verifyTokenOtpV2 cfg store tok ty id nowMs).2 = store) := by
  constructor
  · intro e
    unfold verifyTokenOtpV1
    split
    · exact fun _ => rfl
    · split
      · exact fun _ => rfl
      · split_ifs
        · exact fun _ => rfl
        · exact fun _ => rfl
        · split
          · exact fun _ => rfl
          · intro h
            simp at h
  · intro e
    unfold verifyTokenOtpV2
    split
    · exact fun _ => rfl
    · split
      · exact fun _ => rfl
      · split_ifs
        · exact fun _ => rfl
        · exact fun _ => rfl
        · split
          · exact fun _ => rfl
          · intro h
            simp at h

/-- C9 witness: verifying against an empty store fails NotFound and leaves
the (empty) store unchanged. -/
theorem c9_failure_never_deletes_witness :
    (verifyTokenOtpV1 [] (Raw.otpCode "123456") "resetPassword" (some "u1") 0).2
      = [] :=
  (c9_failure_never_deletes cfgEx [] (Raw.otpCode "123456") "resetPassword"
    (some "u1") 0).1
    (.notFound "Token not found, kindly generate a valid token") (by decide)

end ReavPages
